import Mathlib

/-!
Verification of the dual-channel pump-probe acquisition programs
(`notoriger.py`, `GUI_notrigger.py`, `GUI_notrigger_ver2.0.py`,
`plot_scan_timing.py`).

Modelling conventions for the shallow embedding:
* machine floats are modelled as exact reals (`ℝ`) where base-10
  logarithms or square roots are involved, and as rationals (`ℚ`)
  elsewhere (sums, differences, products and quotients of finite
  float values follow the same field laws);
* an ISO-8601 timestamp is modelled as the instant it denotes, a
  rational number of seconds (the programs only ever subtract
  timestamps and rescale the difference);
* a `(timestamp, intensities)` spectrum read is a pair;
* intensity vectors are modelled either as pixel-indexed functions
  `ℕ → ℝ` (for the averaging/absorbance arithmetic) or as lists
  (where element order and length matter);
* `numpy` reductions (`mean`, `std`, `diff`, `max`, comparison
  counting) are embedded by their documented elementwise
  definitions; `std(ddof=1)` yields NaN when `n - ddof ≤ 0`
  (it warns, it does not raise), which is embedded as `Option`:
  `none` stands for the NaN outcome.
-/

namespace PumpProbe

/-! ### numpy-style list reductions (used by `plot_scan_timing.py` and the
GUI report code) -/

/-- `np.mean` of a 1-d array: sum divided by length. -/
def listMean (xs : List ℚ) : ℚ :=
  xs.sum / (xs.length : ℚ)

/-- The variance computed by `np.std(a, ddof)` before the square root:
mean squared deviation from the ordinary mean, with denominator
`n - ddof`. -/
def sampleVar (xs : List ℚ) (ddof : ℕ) : ℚ :=
  (xs.map (fun x => (x - listMean xs) ^ 2)).sum / ((xs.length : ℚ) - (ddof : ℚ))

/-- `np.std(a, ddof)`: square root of `sampleVar`.  When `n - ddof ≤ 0`
numpy emits a warning and produces NaN instead of raising; the NaN
outcome is embedded as `none`. -/
noncomputable def npStd (xs : List ℚ) (ddof : ℕ) : Option ℝ :=
  if xs.length ≤ ddof then none
  else some (Real.sqrt ((sampleVar xs ddof : ℚ) : ℝ))

/-- `np.diff`: successive differences `xs[i+1] - xs[i]`. -/
def np_diff (xs : List ℚ) : List ℚ :=
  List.zipWith (fun a b => a - b) xs.tail xs

/-- `np.abs(xs).max()` for the nonempty arrays the scripts feed it
(the fold over `max` starting from `0` agrees with numpy's maximum on
any nonempty list of absolute values, all of which are `≥ 0`). -/
def np_abs_max (xs : List ℚ) : ℚ :=
  (xs.map (fun x => |x|)).foldl max 0

/-! ### `plot_scan_timing.py`, `evaluate_timing` (lines 61-80)

`rel_ms = [(isoparse(ts) - t0).total_seconds()*1_000 for ts in ts_list]`
with `t0 = isoparse(ts_list[0])`; `interval_ms = np.diff(rel_ms)`;
`err_ms = interval_ms - ideal_ms` where `ideal_ms = 1_000 / ideal_hz`;
reported are `err_ms.mean()`, `err_ms.std(ddof=1)`,
`np.abs(err_ms).max()` and `lost = (interval_ms > 1.5*ideal_ms).sum()`. -/

/-- Millisecond offsets of all timestamps relative to the first one. -/
def rel_ms_of (ts_list : List ℚ) : List ℚ :=
  ts_list.map (fun t => (t - ts_list.headI) * 1000)

/-- `interval_ms = np.diff(rel_ms)`. -/
def interval_ms_of (ts_list : List ℚ) : List ℚ :=
  np_diff (rel_ms_of ts_list)

/-- `err_ms = interval_ms - ideal_ms`, elementwise. -/
def err_ms_of (ts_list : List ℚ) (ideal_hz : ℚ) : List ℚ :=
  (interval_ms_of ts_list).map (fun x => x - 1000 / ideal_hz)

/-- The numbers printed in `timing_report.txt`. -/
structure TimingEval where
  mean_err : ℚ
  std_err : Option ℝ
  max_abs_err : ℚ
  lost : ℕ

/-- `evaluate_timing(ts_list, ideal_hz, out_dir)`: the statistics it
reports (the file/figure output is presentation, not data). -/
noncomputable def evaluate_timing (ts_list : List ℚ) (ideal_hz : ℚ) : TimingEval :=
  ⟨listMean (err_ms_of ts_list ideal_hz),
   npStd (err_ms_of ts_list ideal_hz) 1,
   np_abs_max (err_ms_of ts_list ideal_hz),
   (interval_ms_of ts_list).countP (fun iv => decide (1.5 * (1000 / ideal_hz) < iv))⟩

/-- Scenario input: 100 timestamps at exactly 1 ms spacing (seconds). -/
def ts_exact_1ms : List ℚ :=
  (List.range 100).map (fun k : ℕ => (k : ℚ) / 1000)

/-- Scenario input: 100 timestamps with one 2 ms interval and the other
98 intervals exactly 1 ms (seconds). -/
def ts_one_double : List ℚ :=
  (0 : ℚ) :: (List.range' 2 99).map (fun k : ℕ => (k : ℚ) / 1000)

/-! ### `GUI_notrigger.py`, per-shot lag (lines 331-335)

`t0 = isoparse(self.ts_off_ref[0])`;
`iso_list_to_ms(lst) = [(isoparse(x) - t0).total_seconds()*1_000 ...]`;
`dt = iso_list_to_ms(ts_prb) - iso_list_to_ms(ts_ref)`. -/

/-- `iso_list_to_ms`: milliseconds of each timestamp relative to `t0`. -/
def iso_list_to_ms (t0 : ℚ) (lst : List ℚ) : List ℚ :=
  lst.map (fun x => (x - t0) * 1000)

/-- The per-shot lag vector `Δt`, probe minus reference, in ms. -/
def dt_lag (t0 : ℚ) (ts_prb ts_ref : List ℚ) : List ℚ :=
  List.zipWith (fun a b => a - b) (iso_list_to_ms t0 ts_prb) (iso_list_to_ms t0 ts_ref)

/-- A `concurrent.futures` future: the value it will deliver plus the
wall-clock instant at which the worker finishes computing it. -/
structure PoolFuture (α : Type) where
  value : α
  done_at : ℕ

/-- `fut.result()` blocks and then returns the task's value; the value
does not depend on when the task finished relative to other tasks. -/
def future_result {α : Type} (fut : PoolFuture α) : α :=
  fut.value

/-- Lines 89-90 of `GUI_notrigger.py`: `ts_r, i_ref = fut_ref.result()`;
`ts_p, i_prb = fut_prb.result()` — the pair is assembled by future
identity, never by completion order. -/
def shot_pair {α : Type} (fut_ref fut_prb : PoolFuture α) : α × α :=
  (future_result fut_ref, future_result fut_prb)

/-! ### `grab_once` (`notoriger.py` lines 42-45, `_grab_once` in both
GUI files)

```
ts = now_iso()
return ts, spec.intensities().astype(np.float32)
```

The host clock is modelled as a tick counter; the blocking
`spec.intensities()` call consumes `read_duration` ticks. -/

/-- Host wall clock, in abstract ticks. -/
structure HostClock where
  now : ℕ
  deriving DecidableEq

/-- One spectrometer: how long a blocking read takes and the frame it
delivers. -/
structure SpectroChannel where
  read_duration : ℕ
  frame : List ℚ
  deriving DecidableEq

/-- `now_iso()`: reads the host clock. -/
def now_iso (c : HostClock) : ℕ :=
  c.now

/-- `grab_once(spec)`: evaluates `now_iso()` first, then performs the
blocking `spec.intensities()` read (which advances the clock), and
returns the `(timestamp, intensities)` pair together with the
post-read clock. -/
def grab_once (spec : SpectroChannel) (c : HostClock) : (ℕ × List ℚ) × HostClock :=
  let ts := now_iso c
  ((ts, spec.frame), ⟨c.now + spec.read_duration⟩)

/-! ### State aggregation and the ΔA combiner

`notoriger.py` lines 57-78 accumulate `a_stack[i] = -log10(i_prb/i_ref)`
and return `a_stack.mean(0)`; `GUI_notrigger_ver2.0.py` lines 111-119
additionally report `np.mean(i_ref_stack, 0)` and `np.mean(i_prb_stack, 0)`.
`save_files` (ver2.0 lines 344-347) combines the two states:

```
delta_a_conventional = self.a_on - self.a_off
delta_a_probe = -np.log10(self.i_prb_on / self.i_prb_off)
delta_a_ref  = -np.log10(self.i_ref_on / self.i_ref_off)
```

Intensity vectors are pixel-indexed functions; a per-state stack is
indexed by shot then pixel. -/

/-- Elementwise `-np.log10(i_prb / i_ref)`. -/
noncomputable def absorbance_vec (i_prb i_ref : ℕ → ℝ) : ℕ → ℝ :=
  fun px => -Real.logb 10 (i_prb px / i_ref px)

/-- `stack.mean(0)`: per-pixel mean over the `n` shot rows. -/
noncomputable def mean_axis0 (n : ℕ) (stack : ℕ → ℕ → ℝ) : ℕ → ℝ :=
  fun px => (∑ i ∈ Finset.range n, stack i px) / (n : ℝ)

/-- The per-state result record handed to the session. -/
structure StateAggregate where
  a_mean : ℕ → ℝ
  i_ref_mean : ℕ → ℝ
  i_prb_mean : ℕ → ℝ

/-- `acquire_state`: `n_scans` shots from the two channels (a channel is
shot-index → pixel → intensity), averaged. -/
noncomputable def acquire_state (ch_ref ch_prb : ℕ → ℕ → ℝ) (n_scans : ℕ) : StateAggregate :=
  ⟨mean_axis0 n_scans (fun i => absorbance_vec (ch_prb i) (ch_ref i)),
   mean_axis0 n_scans ch_ref,
   mean_axis0 n_scans ch_prb⟩

/-- `delta_a_conventional = a_on - a_off`. -/
noncomputable def delta_a_conventional (aggOn aggOff : StateAggregate) : ℕ → ℝ :=
  fun px => aggOn.a_mean px - aggOff.a_mean px

/-- `delta_a_probe = -np.log10(i_prb_on / i_prb_off)`. -/
noncomputable def delta_a_probe (aggOn aggOff : StateAggregate) : ℕ → ℝ :=
  fun px => -Real.logb 10 (aggOn.i_prb_mean px / aggOff.i_prb_mean px)

/-- `delta_a_ref = -np.log10(i_ref_on / i_ref_off)`. -/
noncomputable def delta_a_ref (aggOn aggOff : StateAggregate) : ℕ → ℝ :=
  fun px => -Real.logb 10 (aggOn.i_ref_mean px / aggOff.i_ref_mean px)

/-- A channel returning the constant intensity `c` on every shot and
pixel. -/
def ch_const (c : ℝ) : ℕ → ℕ → ℝ :=
  fun _ _ => c

/-- OFF-state aggregate of the end-to-end scenario: both channels read
1000 on all 200 shots. -/
noncomputable def agg_off_1000 : StateAggregate :=
  acquire_state (ch_const 1000) (ch_const 1000) 200

/-- ON-state aggregate of the end-to-end scenario: both channels read
500 on all 200 shots. -/
noncomputable def agg_on_500 : StateAggregate :=
  acquire_state (ch_const 500) (ch_const 500) 200

/-- A concrete aggregate used to instantiate combiner lemmas. -/
noncomputable def agg_flat : StateAggregate :=
  ⟨fun _ => 0, fun _ => 1000, fun _ => 750⟩

/-! ### `AcquisitionWorker.run` (`GUI_notrigger.py` lines 79-101)

```
for i in range(self.n_scans):
    if not self.is_running: break
    ... one shot ...
if not self.is_running: return
... self.finished.emit(result)
```

`cancelled i` is the value of `not self.is_running` observed at the
poll point before shot `i`; `shot i` is the data shot `i` yields. -/

/-- The acquisition loop: returns the shots actually taken and whether a
poll observed cancellation (causing the `break`). -/
def acquire_loop {σ : Type} (cancelled : ℕ → Bool) (shot : ℕ → σ) : ℕ → ℕ → List σ × Bool
  | _, 0 => ([], false)
  | i, k + 1 =>
    if cancelled i = true then ([], true)
    else
      let rest := acquire_loop cancelled shot (i + 1) k
      (shot i :: rest.1, rest.2)

/-- `run`: after the loop, a cancelled worker returns without emitting;
otherwise the finished signal carries the collected data. -/
def worker_run {σ : Type} (n : ℕ) (cancelled : ℕ → Bool) (shot : ℕ → σ) : Option (List σ) :=
  let r := acquire_loop cancelled shot 0 n
  if r.2 = true then none else some r.1

/-- The per-state numbers printed by `generate_report`
(`GUI_notrigger.py` lines 380-391): `dt.mean()` and `dt.std(ddof=1)`
for each state's lag array. -/
structure ReportStats where
  mean_off : ℚ
  std_off : Option ℝ
  mean_on : ℚ
  std_on : Option ℝ

/-- `generate_report`: formats the four statistics; producing the record
never fails, whatever the array lengths. -/
noncomputable def generate_report (dt_off dt_on : List ℚ) : ReportStats :=
  ⟨listMean dt_off, npStd dt_off 1, listMean dt_on, npStd dt_on 1⟩

/-! ### The GUI session state machine (`GUI_notrigger.py`)

States are the `_set_ui_state` keys; `measuring` remembers which state
label the running worker was started with.  Events are the state
changes actually wired in the code: `initialize_spectrometers` (success
enters `ready_for_off`, failure calls `reset_connection`),
`_start_acquisition` from the two start buttons, worker `finished`
(OFF → `ready_for_on`; ON → `process_and_display_results` which ends in
`ready_for_off`), worker `error` (`on_acquisition_error` always sets
`ready_for_off`, lines 303-308), and `reset_connection` (sets
`initial`; it is also the only caller of `worker.stop()`, so
cancellation is reachable only through it). -/

/-- The pump state label an acquisition was started with. -/
inductive PumpLabel
  | OFF
  | ON
  deriving DecidableEq

/-- The `_set_ui_state` keys. -/
inductive UiState
  | initial
  | ready_for_off
  | measuring (label : PumpLabel)
  | ready_for_on
  deriving DecidableEq

/-- The events that drive `_set_ui_state` transitions. -/
inductive SessionEvent
  | init_ok
  | init_fail
  | start_off
  | start_on
  | acq_finished
  | acq_error
  | reset_conn
  deriving DecidableEq

/-- The session transition function of `GUI_notrigger.py`.  Events whose
buttons are disabled in a state leave it unchanged. -/
def ui_step : UiState → SessionEvent → UiState
  | _, .reset_conn => .initial
  | .initial, .init_ok => .ready_for_off
  | .ready_for_off, .start_off => .measuring .OFF
  | .ready_for_on, .start_on => .measuring .ON
  | .measuring .OFF, .acq_finished => .ready_for_on
  | .measuring .ON, .acq_finished => .ready_for_off
  | .measuring _, .acq_error => .ready_for_off
  | s, _ => s

/-! ### The executor operations of one shot (`GUI_notrigger.py` lines
87-90, `notoriger.py` lines 63-67)

```
fut_ref = exe.submit(self._grab_once, self.spec_ref)
fut_prb = exe.submit(self._grab_once, self.spec_probe)
ts_r, i_ref = fut_ref.result()
ts_p, i_prb = fut_prb.result()
```

`submit` is non-blocking (the pool has `max_workers=2`, one worker per
channel); `result` blocks until that channel's read is complete. -/

/-- One interaction with the thread pool. -/
inductive ShotAction
  | submit_ref
  | submit_prb
  | await_ref
  | await_prb
  deriving DecidableEq, BEq

/-- The executor operations of one shot, in program order. -/
def shot_body : List ShotAction :=
  [.submit_ref, .submit_prb, .await_ref, .await_prb]

/-- Whether an action issues a read. -/
def is_submit_act : ShotAction → Bool
  | .submit_ref => true
  | .submit_prb => true
  | _ => false

/-- Whether an action blocks on a read's completion. -/
def is_await_act : ShotAction → Bool
  | .await_ref => true
  | .await_prb => true
  | _ => false

/-! ### `AcquisitionWorker.run` of `GUI_notrigger_ver2.0.py` (lines
83-122)

The stacks are preallocated with `np.empty` / `np.empty_like`
(lines 87-89), yet the loop body calls `.append` on them (lines
102-105).  `numpy.ndarray` has no `append` attribute, so that call
raises `AttributeError`; the surrounding `try` forwards it to the
`error` signal (lines 121-122). -/

/-- The Python exceptions this model distinguishes. -/
inductive PyError
  | attributeError
  deriving DecidableEq

/-- A `numpy.ndarray` of spectra rows. -/
structure NpNdarray where
  rows : List (List ℝ)

/-- Attribute lookup `arr.append`: `numpy.ndarray` has no such
attribute, so the call raises `AttributeError` unconditionally. -/
def ndarray_append (_arr : NpNdarray) (_row : List ℝ) : Except PyError NpNdarray :=
  Except.error PyError.attributeError

/-- The mutable locals of ver2.0 `run`. -/
structure RunV2State where
  a_stack : NpNdarray
  i_ref_stack : NpNdarray
  i_prb_stack : NpNdarray
  ts_ref : List ℚ
  ts_prb : List ℚ

/-- `np.mean(stack, axis=0)` over a row list. -/
noncomputable def np_mean_axis0 (rows : List (List ℝ)) : List ℝ :=
  match rows with
  | [] => []
  | r :: rs => (rs.foldl (List.zipWith (fun a b => a + b)) r).map (fun s => s / ((rs.length : ℝ) + 1))

/-- The payload of ver2.0's `finished` signal. -/
structure WorkerV2Out where
  A_mean : List ℝ
  I_ref_mean : List ℝ
  I_prb_mean : List ℝ
  ts_ref : List ℚ
  ts_prb : List ℚ

/-- The ver2.0 acquisition loop (lines 92-106).  Each iteration polls
cancellation, reads both channels (`shot_ref i`/`shot_prb i` are the
`(timestamp, intensities)` pairs shot `i` would yield), appends the
timestamps to the Python lists, then calls `.append` on the three
preallocated ndarrays. -/
def run_v2_loop (cancelled : ℕ → Bool) (shot_ref shot_prb : ℕ → ℚ × List ℝ) :
    ℕ → ℕ → RunV2State → Except PyError (RunV2State × Bool)
  | _, 0, st => Except.ok (st, false)
  | i, k + 1, st =>
    if cancelled i = true then Except.ok (st, true)
    else
      let tr := shot_ref i
      let tp := shot_prb i
      let st1 : RunV2State :=
        ⟨st.a_stack, st.i_ref_stack, st.i_prb_stack,
         st.ts_ref ++ [tr.1], st.ts_prb ++ [tp.1]⟩
      match ndarray_append st1.i_ref_stack tr.2 with
      | Except.error e => Except.error e
      | Except.ok arr_ref =>
        match ndarray_append st1.i_prb_stack tp.2 with
        | Except.error e => Except.error e
        | Except.ok arr_prb =>
          match ndarray_append st1.a_stack
              (List.zipWith (fun p r => -Real.logb 10 (p / r)) tp.2 tr.2) with
          | Except.error e => Except.error e
          | Except.ok arr_a =>
            run_v2_loop cancelled shot_ref shot_prb (i + 1) k
              ⟨arr_a, arr_ref, arr_prb, st1.ts_ref, st1.ts_prb⟩

/-- ver2.0 `run`: an exception anywhere becomes the `error` signal
(`Except.error`); a cancelled run returns silently (`Except.ok none`);
otherwise the `finished` signal carries the averaged result
(`Except.ok (some _)`). -/
noncomputable def run_v2 (n : ℕ) (cancelled : ℕ → Bool)
    (shot_ref shot_prb : ℕ → ℚ × List ℝ) : Except PyError (Option WorkerV2Out) :=
  match run_v2_loop cancelled shot_ref shot_prb 0 n ⟨⟨[]⟩, ⟨[]⟩, ⟨[]⟩, [], []⟩ with
  | Except.error e => Except.error e
  | Except.ok (st, was_cancelled) =>
    if was_cancelled = true then Except.ok none
    else Except.ok (some ⟨np_mean_axis0 st.a_stack.rows,
                          np_mean_axis0 st.i_ref_stack.rows,
                          np_mean_axis0 st.i_prb_stack.rows,
                          st.ts_ref, st.ts_prb⟩)

/-! ## Helper lemmas -/

/-- Unfolding `dt_lag` to the direct per-shot difference. -/
theorem dt_lag_eq_direct (t0 : ℚ) :
    ∀ ts_prb ts_ref : List ℚ,
      dt_lag t0 ts_prb ts_ref = List.zipWith (fun p r => (p - r) * 1000) ts_prb ts_ref := by
  intro ts_prb
  induction ts_prb with
  | nil => intro ts_ref; rfl
  | cons p ps ih =>
    intro ts_ref
    cases ts_ref with
    | nil => rfl
    | cons r rs =>
      have hh : (p - t0) * 1000 - (r - t0) * 1000 = (p - r) * 1000 := by ring
      simpa [dt_lag, iso_list_to_ms] using And.intro hh (by simpa [dt_lag, iso_list_to_ms] using ih rs)

/-- The loop of `worker_run`, run from start index `s` with `k`
iterations left, stops at the first cancelled poll `i` and keeps
exactly the shots before it. -/
theorem acquire_loop_cancel {σ : Type} (cancelled : ℕ → Bool) (shot : ℕ → σ) :
    ∀ (k s i : ℕ), s ≤ i → i < s + k → cancelled i = true →
      (∀ j, s ≤ j → j < i → cancelled j = false) →
      acquire_loop cancelled shot s k = ((List.range' s (i - s)).map shot, true) := by
  intro k
  induction k with
  | zero => intro s i hsi hik _ _; omega
  | succ m ih =>
    intro s i hsi hik hc hprev
    by_cases hcs : cancelled s = true
    · have his : i = s := by
        by_contra hne
        have : s < i := lt_of_le_of_ne hsi (fun h => hne h.symm)
        have := hprev s le_rfl this
        rw [this] at hcs
        exact Bool.false_ne_true hcs
      subst his
      simp [acquire_loop, hcs]
    · have hsltd : s < i := by
        rcases lt_or_eq_of_le hsi with h | h
        · exact h
        · exact absurd (h ▸ hc) hcs
      have hrec := ih (s + 1) i hsltd (by omega) hc (fun j hj1 hj2 => hprev j (by omega) hj2)
      have hexp : i - s = (i - (s + 1)) + 1 := by omega
      rw [acquire_loop, if_neg (by simp [hcs]), hrec, hexp, List.range'_succ, List.map_cons]

/-- `countP` over a constant list whose element fails the predicate. -/
theorem countP_replicate_false {p : ℚ → Bool} {a : ℚ} (h : p a = false) :
    ∀ n, (List.replicate n a).countP p = 0 := by
  intro n
  induction n with
  | zero => rfl
  | succ m ih => rw [List.replicate_succ, List.countP_cons_of_neg p _ (by simp [h]), ih]

/-- Folding `max` from `0` over a list of zeros gives `0`. -/
theorem foldl_max_replicate_zero : ∀ n : ℕ, (List.replicate n (0 : ℚ)).foldl max 0 = 0 := by
  intro n
  induction n with
  | zero => rfl
  | succ m ih => rw [List.replicate_succ, List.foldl_cons, max_self]; exact ih

/-- One step of `np.diff` on a list with at least two elements. -/
theorem np_diff_cons_cons (a b : ℚ) (t : List ℚ) :
    np_diff (a :: b :: t) = (b - a) :: np_diff (b :: t) := rfl

/-- `np.diff` of consecutive integers is all ones. -/
theorem np_diff_cast_range' :
    ∀ n s : ℕ, np_diff ((List.range' s n).map (fun k : ℕ => (k : ℚ))) = List.replicate (n - 1) 1 := by
  intro n
  induction n with
  | zero => intro s; rfl
  | succ m ih =>
    intro s
    cases m with
    | zero => rfl
    | succ p =>
      have h1 : List.range' s (p + 2) = s :: List.range' (s + 1) (p + 1) := List.range'_succ s (p + 1) 1
      have h2 : List.range' (s + 1) (p + 1) = (s + 1) :: List.range' (s + 2) p := List.range'_succ (s + 1) p 1
      have htail := ih (s + 1)
      rw [h2, List.map_cons] at htail
      simp only [Nat.add_sub_cancel] at htail ⊢
      rw [h1, List.map_cons, h2, List.map_cons, np_diff_cons_cons, htail]
      have hone : (((s + 1 : ℕ) : ℚ)) - ((s : ℕ) : ℚ) = 1 := by push_cast; ring
      rw [hone, List.replicate_succ]

/-- The first timestamp of the exact-spacing scenario. -/
theorem ts_exact_1ms_headI : ts_exact_1ms.headI = 0 := by
  rw [ts_exact_1ms, show (100 : ℕ) = 99 + 1 from rfl, List.range_succ_eq_map, List.map_cons]
  show ((0 : ℕ) : ℚ) / 1000 = 0
  norm_num

/-- Relative millisecond offsets of the exact-spacing scenario. -/
theorem rel_ms_ts_exact :
    rel_ms_of ts_exact_1ms = (List.range' 0 100).map (fun k : ℕ => (k : ℚ)) := by
  unfold rel_ms_of
  rw [ts_exact_1ms_headI, ts_exact_1ms, List.map_map, ← List.range_eq_range']
  have hf : ((fun t => (t - 0) * 1000) ∘ fun k : ℕ => (k : ℚ) / 1000) = (fun k : ℕ => (k : ℚ)) :=
    funext fun k => by
      show ((k : ℚ) / 1000 - 0) * 1000 = (k : ℚ)
      rw [sub_zero, div_mul_cancel₀ _ (by norm_num : (1000 : ℚ) ≠ 0)]
  rw [hf]

/-- The intervals of the exact-spacing scenario are 99 exact
milliseconds. -/
theorem interval_ts_exact : interval_ms_of ts_exact_1ms = List.replicate 99 1 := by
  rw [interval_ms_of, rel_ms_ts_exact, np_diff_cast_range']

/-- The per-interval errors of the exact-spacing scenario are all
zero. -/
theorem err_ts_exact : err_ms_of ts_exact_1ms 1000 = List.replicate 99 0 := by
  rw [err_ms_of, interval_ts_exact, List.map_replicate]
  norm_num

/-- Relative millisecond offsets of the one-doubled-interval
scenario. -/
theorem rel_ms_ts_one_double :
    rel_ms_of ts_one_double = 0 :: (List.range' 2 99).map (fun k : ℕ => (k : ℚ)) := by
  rw [rel_ms_of, ts_one_double, List.headI_cons, List.map_cons, List.map_map]
  have h0 : ((0 : ℚ) - 0) * 1000 = 0 := by ring
  have hf : ((fun t => (t - 0) * 1000) ∘ fun k : ℕ => (k : ℚ) / 1000) = (fun k : ℕ => (k : ℚ)) :=
    funext fun k => by
      show ((k : ℚ) / 1000 - 0) * 1000 = (k : ℚ)
      rw [sub_zero, div_mul_cancel₀ _ (by norm_num : (1000 : ℚ) ≠ 0)]
  rw [h0, hf]

/-- The intervals of the one-doubled-interval scenario: one 2 ms
interval followed by 98 exact milliseconds. -/
theorem interval_ts_one_double : interval_ms_of ts_one_double = 2 :: List.replicate 98 1 := by
  rw [interval_ms_of, rel_ms_ts_one_double]
  have h2 : List.range' 2 99 = 2 :: List.range' 3 98 := List.range'_succ 2 98 1
  have hd : np_diff (((2 : ℕ) : ℚ) :: (List.range' 3 98).map (fun k : ℕ => (k : ℚ))) =
      List.replicate 98 1 := by
    have h := np_diff_cast_range' 99 2
    rw [h2, List.map_cons] at h
    simpa using h
  rw [h2, List.map_cons, np_diff_cons_cons, hd]
  norm_num

/-- Per-pixel mean of a stack that is constant at one pixel. -/
theorem mean_axis0_const_at (n : ℕ) (hn : (n : ℝ) ≠ 0) (stack : ℕ → ℕ → ℝ) (px : ℕ) (c : ℝ)
    (h : ∀ i, stack i px = c) : mean_axis0 n stack px = c := by
  unfold mean_axis0
  rw [Finset.sum_congr rfl (fun i _ => h i), Finset.sum_const, Finset.card_range, nsmul_eq_mul,
    mul_comm, mul_div_assoc, div_self hn, mul_one]

/-- The absorbance of equal constant probe and reference intensities is
zero whenever the constant is nonzero. -/
theorem absorbance_vec_const (c : ℝ) (hc : c ≠ 0) (px : ℕ) :
    absorbance_vec (fun _ => c) (fun _ => c) px = 0 := by
  unfold absorbance_vec
  rw [div_self hc, Real.logb_one, neg_zero]

/-! ## Claims -/

/-- Claim C1: with both channels returning constant intensity 1000 on
every one of 200 OFF shots and constant 500 on every one of 200 ON
shots, `delta_a_conventional` is zero at every pixel while
`delta_a_probe` and `delta_a_ref` both equal
`-log10(500/1000) = log10 2` at every pixel. -/
theorem C1_end_to_end_constant_channels :
    ∀ px : ℕ,
      delta_a_conventional agg_on_500 agg_off_1000 px = 0 ∧
      delta_a_probe agg_on_500 agg_off_1000 px = Real.logb 10 2 ∧
      delta_a_ref agg_on_500 agg_off_1000 px = Real.logb 10 2 := by
  intro px
  have h200 : ((200 : ℕ) : ℝ) ≠ 0 := by norm_num
  have ha_on : agg_on_500.a_mean px = 0 :=
    mean_axis0_const_at 200 h200 _ px 0 (fun i => absorbance_vec_const 500 (by norm_num) px)
  have ha_off : agg_off_1000.a_mean px = 0 :=
    mean_axis0_const_at 200 h200 _ px 0 (fun i => absorbance_vec_const 1000 (by norm_num) px)
  have hp_on : agg_on_500.i_prb_mean px = 500 :=
    mean_axis0_const_at 200 h200 _ px 500 (fun _ => rfl)
  have hp_off : agg_off_1000.i_prb_mean px = 1000 :=
    mean_axis0_const_at 200 h200 _ px 1000 (fun _ => rfl)
  have hr_on : agg_on_500.i_ref_mean px = 500 :=
    mean_axis0_const_at 200 h200 _ px 500 (fun _ => rfl)
  have hr_off : agg_off_1000.i_ref_mean px = 1000 :=
    mean_axis0_const_at 200 h200 _ px 1000 (fun _ => rfl)
  have hhalf : (500 : ℝ) / 1000 = 2⁻¹ := by norm_num
  refine ⟨?_, ?_, ?_⟩
  · rw [delta_a_conventional, ha_on, ha_off, sub_zero]
  · rw [delta_a_probe, hp_on, hp_off, hhalf, Real.logb_inv, neg_neg]
  · rw [delta_a_ref, hr_on, hr_off, hhalf, Real.logb_inv, neg_neg]

/-- Claim C2, counterexample: on a channel whose blocking read takes 5
ticks, starting at tick 0, `grab_once` returns timestamp 0 while the
read completes at tick 5 — the stamp is not the post-read instant. -/
theorem C2_counterexample :
    ¬ ((grab_once ⟨5, []⟩ ⟨0⟩).1.1 = (grab_once ⟨5, []⟩ ⟨0⟩).2.now) := by
  decide

/-- Claim C2 (amended): the timestamp attached to the returned pair is
taken immediately before the blocking hardware read is issued — it is
the clock value at entry, while the read then advances the clock by
the read duration. -/
theorem C2_timestamp_before_read (spec : SpectroChannel) (c : HostClock) :
    (grab_once spec c).1.1 = c.now ∧ (grab_once spec c).2.now = c.now + spec.read_duration :=
  ⟨rfl, rfl⟩

set_option maxHeartbeats 1000000 in
/-- Claim C3: `evaluate_timing` on 100 timestamps at exactly 1 ms
spacing against a 1 ms ideal period (1000 Hz) reports mean error 0,
sample standard deviation 0 (denominator N−1), maximum absolute error
0 and dropped-cycle count 0; replacing one interval by 2 ms makes the
dropped-cycle count (intervals strictly exceeding 1.5 × ideal) exactly
1. -/
theorem C3_evaluate_timing_scenarios :
    (evaluate_timing ts_exact_1ms 1000).mean_err = 0 ∧
    (evaluate_timing ts_exact_1ms 1000).std_err = some 0 ∧
    (evaluate_timing ts_exact_1ms 1000).max_abs_err = 0 ∧
    (evaluate_timing ts_exact_1ms 1000).lost = 0 ∧
    (evaluate_timing ts_one_double 1000).lost = 1 := by
  have herr : err_ms_of ts_exact_1ms 1000 = List.replicate 99 0 := err_ts_exact
  have hmean : listMean (List.replicate 99 (0 : ℚ)) = 0 := by
    rw [listMean, List.sum_replicate, smul_zero, zero_div]
  refine ⟨?_, ?_, ?_, ?_, ?_⟩
  · show listMean (err_ms_of ts_exact_1ms 1000) = 0
    rw [herr, hmean]
  · show npStd (err_ms_of ts_exact_1ms 1000) 1 = some 0
    rw [herr, npStd, if_neg (by simp)]
    have hvar : sampleVar (List.replicate 99 (0 : ℚ)) 1 = 0 := by
      rw [sampleVar, hmean]
      simp
    rw [hvar]
    norm_num
  · show np_abs_max (err_ms_of ts_exact_1ms 1000) = 0
    rw [herr, np_abs_max, List.map_replicate, abs_zero, foldl_max_replicate_zero]
  · show (interval_ms_of ts_exact_1ms).countP (fun iv => decide (1.5 * (1000 / 1000) < iv)) = 0
    rw [interval_ts_exact]
    exact countP_replicate_false (by norm_num) 99
  · show (interval_ms_of ts_one_double).countP (fun iv => decide (1.5 * (1000 / 1000) < iv)) = 1
    rw [interval_ts_one_double,
      List.countP_cons_of_pos _ _ (by norm_num),
      countP_replicate_false (by norm_num) 98]

/-- Claim C4, counterexample: a failed ON acquisition does not leave the
session ready to start ON again — `on_acquisition_error` always sets
`ready_for_off`; a cancellation (only reachable through
`reset_connection`) moreover transitions differently from a failure. -/
theorem C4_counterexample :
    ui_step (UiState.measuring PumpLabel.ON) SessionEvent.acq_error = UiState.ready_for_off ∧
    ¬ (ui_step (UiState.measuring PumpLabel.ON) SessionEvent.acq_error = UiState.ready_for_on) ∧
    ¬ (ui_step (UiState.measuring PumpLabel.ON) SessionEvent.reset_conn =
        ui_step (UiState.measuring PumpLabel.ON) SessionEvent.acq_error) := by
  decide

/-- Claim C4 (amended): every acquisition failure returns the session to
`ready_for_off` — after a failed OFF acquisition the operator can retry
OFF without re-initializing, but after a failed ON acquisition the
session is also `ready_for_off` (the OFF measurement must be redone);
cancellation, which is reachable only through a connection reset,
returns the session to the initial (idle) state instead of mirroring
failure. -/
theorem C4_failure_goes_ready_for_off :
    ui_step (UiState.measuring PumpLabel.OFF) SessionEvent.acq_error = UiState.ready_for_off ∧
    ui_step (UiState.measuring PumpLabel.ON) SessionEvent.acq_error = UiState.ready_for_off ∧
    ui_step (ui_step (UiState.measuring PumpLabel.OFF) SessionEvent.acq_error)
        SessionEvent.start_off = UiState.measuring PumpLabel.OFF ∧
    ui_step (UiState.measuring PumpLabel.OFF) SessionEvent.reset_conn = UiState.initial ∧
    ui_step (UiState.measuring PumpLabel.ON) SessionEvent.reset_conn = UiState.initial := by
  decide

/-- Claim C5: cancellation is polled before each shot; when the first
poll observing cancellation is poll `i` (with `i < n`), the loop stops
there — exactly the shots `0, …, i−1` were taken — and the worker emits
no aggregate at all. -/
theorem C5_cancellation_no_aggregate {σ : Type} (n i : ℕ) (cancelled : ℕ → Bool) (shot : ℕ → σ)
    (hin : i < n) (hc : cancelled i = true) (hprev : ∀ j, j < i → cancelled j = false) :
    worker_run n cancelled shot = none ∧
    (acquire_loop cancelled shot 0 n).1 = (List.range i).map shot := by
  have h := acquire_loop_cancel cancelled shot n 0 i (Nat.zero_le i) (by omega) hc
    (fun j _ hj => hprev j hj)
  constructor
  · rw [worker_run]
    simp [h]
  · rw [h, List.range_eq_range']
    simp

/-- Claim C5, witness: a 3-shot run cancelled at poll 1 emits nothing
and took exactly shot 0. -/
theorem C5_cancellation_no_aggregate_witness :
    worker_run 3 (fun j => j == 1) (fun i => i) = none ∧
    (acquire_loop (fun j => j == 1) (fun i => i) 0 3).1 = (List.range 1).map (fun i => i) :=
  C5_cancellation_no_aggregate 3 1 (fun j => j == 1) (fun i => i) (by omega) rfl
    (fun j hj => by
      have : j = 0 := by omega
      subst this
      rfl)

/-- Claim C6: reducing both timestamp series to millisecond offsets
from a common zero and then subtracting equals the direct per-shot
difference `(timestamp_probe[i] − timestamp_ref[i])` in milliseconds;
the result is independent of the chosen common zero; and the pair a
shot yields is assembled by future identity, so it is unchanged under
any completion order (completion instants) of the two reads. -/
theorem C6_lag_common_zero_irrelevant (t0 : ℚ) (ts_prb ts_ref : List ℚ)
    (h : ts_prb.length = ts_ref.length) :
    dt_lag t0 ts_prb ts_ref = List.zipWith (fun p r => (p - r) * 1000) ts_prb ts_ref ∧
    (∀ t1, dt_lag t1 ts_prb ts_ref = dt_lag t0 ts_prb ts_ref) ∧
    (∀ (α : Type) (v_ref v_prb : α) (d1 d2 d1h d2h : ℕ),
      shot_pair ⟨v_ref, d1⟩ ⟨v_prb, d2⟩ = shot_pair ⟨v_ref, d1h⟩ ⟨v_prb, d2h⟩) :=
  ⟨dt_lag_eq_direct t0 ts_prb ts_ref,
   fun t1 => by rw [dt_lag_eq_direct, dt_lag_eq_direct],
   fun _ _ _ _ _ _ _ => rfl⟩

/-- Claim C6, witness: concrete two-shot series with an arbitrary
common zero. -/
theorem C6_lag_common_zero_irrelevant_witness :
    dt_lag 7 [1, 2] [3, 4] = List.zipWith (fun p r => (p - r) * 1000) [1, 2] [3, 4] :=
  (C6_lag_common_zero_irrelevant 7 [1, 2] [3, 4] rfl).1

/-- Claim C7: if the OFF and ON mean probe intensities agree elementwise
then `delta_a_probe = -log10(ON/OFF)` is zero at every pixel. -/
theorem C7_equal_means_zero_delta (aggOn aggOff : StateAggregate)
    (h : aggOn.i_prb_mean = aggOff.i_prb_mean) :
    ∀ px, delta_a_probe aggOn aggOff px = 0 := by
  intro px
  unfold delta_a_probe
  rw [h]
  rcases eq_or_ne (aggOff.i_prb_mean px) 0 with h0 | h0
  · rw [h0, div_zero, Real.logb_zero, neg_zero]
  · rw [div_self h0, Real.logb_one, neg_zero]

/-- Claim C7, witness: an aggregate combined with itself has zero
probe-side ΔA at pixel 0. -/
theorem C7_equal_means_zero_delta_witness : delta_a_probe agg_flat agg_flat 0 = 0 :=
  C7_equal_means_zero_delta agg_flat agg_flat rfl 0

/-- Claim C8: with N = 1 shot, the acquisition loop still emits a valid
one-shot aggregate, and the report statistics are still produced: the
sample standard deviation (`std(ddof=1)`) of a single lag value is the
NaN outcome (`none`), not an exception. -/
theorem C8_single_shot_no_crash :
    ∀ (x y : ℚ) (shot : ℕ → ℚ),
      worker_run 1 (fun _ => false) shot = some [shot 0] ∧
      npStd [x] 1 = none ∧
      generate_report [x] [y] = ⟨x, none, y, none⟩ := by
  intro x y shot
  refine ⟨rfl, rfl, ?_⟩
  rw [generate_report]
  have hm : ∀ z : ℚ, listMean [z] = z := by
    intro z
    rw [listMean]
    simp
  rw [hm x, hm y]
  rfl

/-- Claim C9: within one shot both channel reads are submitted to the
pool before either result is awaited — every submit action precedes
every await action in program order — and the shot body contains
exactly one await per channel, so the shot completes only once both
reads have completed. -/
theorem C9_both_submitted_before_awaited :
    (∀ i j : Fin shot_body.length,
      is_submit_act (shot_body.get i) = true → is_await_act (shot_body.get j) = true →
      (i : ℕ) < (j : ℕ)) ∧
    shot_body.count ShotAction.submit_ref = 1 ∧
    shot_body.count ShotAction.submit_prb = 1 ∧
    shot_body.count ShotAction.await_ref = 1 ∧
    shot_body.count ShotAction.await_prb = 1 := by
  decide

/-- Claim C10: in ver2.0, any uncancelled run with at least one scan
hits the `.append` call on the `np.empty`-preallocated arrays in its
first iteration, raises `AttributeError`, and therefore emits the error
signal — never a finished result. -/
theorem C10_v2_run_always_errors (n : ℕ) (hn : 1 ≤ n) (cancelled : ℕ → Bool)
    (hc : ∀ i, cancelled i = false) (shot_ref shot_prb : ℕ → ℚ × List ℝ) :
    run_v2 n cancelled shot_ref shot_prb = Except.error PyError.attributeError := by
  obtain ⟨k, rfl⟩ : ∃ k, n = k + 1 := ⟨n - 1, by omega⟩
  rw [run_v2, run_v2_loop]
  rw [if_neg (by simp [hc 0])]
  rfl

/-- Claim C10, witness: a single-scan uncancelled run errors out. -/
theorem C10_v2_run_always_errors_witness :
    run_v2 1 (fun _ => false) (fun _ => (0, [])) (fun _ => (0, [])) =
      Except.error PyError.attributeError :=
  C10_v2_run_always_errors 1 le_rfl (fun _ => false) (fun _ => rfl) _ _

end PumpProbe
